import Mathlib

/-!
Verification of the browser-tool module (`nanobot/agent/tools/browser.py`).

The Python module is shallowly embedded below:

* URL validation (`_validate_url`) together with the scheme/netloc part of
  CPython's `urllib.parse.urlsplit`, which it calls.
* The `BrowserSession` handle state (playwright driver / browser process /
  context / page) with its operations `get_page`, `reconfigure`,
  `save_storage_state` and `close`.  Calls into the external Playwright
  engine may fail; each operation therefore takes an explicit outcome
  parameter enumerating the points at which an engine call can raise, and
  the state transition reproduces exactly which handle assignments have
  happened at that point in the Python source.
* The snapshot / click element protocol: the JavaScript evaluated by
  `BrowserSnapshotTool.execute` over a model DOM (a list of elements in
  document order), and the marker lookup done by `BrowserClickTool`.
* The content tool's blank-line collapsing and truncation.
* `BrowserNavigateTool.execute` as a function of the session state and the
  outcomes of the engine calls it makes.
-/

/-! ## URL parsing and validation -/

/-- Characters allowed in a URL scheme after the first character
(`urllib.parse.scheme_chars`). -/
def schemeChars : List Char :=
  "abcdefghijklmnopqrstuvwxyzABCDEFGHIJKLMNOPQRSTUVWXYZ0123456789+-.".toList

/-- C0 control characters and space, stripped from the front of a URL by
`urlsplit` (`_WHATWG_C0_CONTROL_OR_SPACE`). -/
def isC0OrSpace (c : Char) : Bool := c.toNat ≤ 32

/-- Tab, CR and LF are removed everywhere in the URL by `urlsplit`
(`_UNSAFE_URL_BYTES_TO_REMOVE`). -/
def isUnsafeUrlByte (c : Char) : Bool := c = '\t' ∨ c = '\r' ∨ c = '\n'

/-- Scheme extraction of `urlsplit`: the text before the first `:` is the
scheme when the colon is not first, the first character is an ASCII letter and
the rest are scheme characters; the scheme is lowercased.  Returns the scheme
and the remainder of the URL. -/
def splitScheme (cs : List Char) : String × List Char :=
  match cs.findIdx? (fun c => c = ':') with
  | none => ("", cs)
  | some i =>
    if i = 0 then ("", cs)
    else
      match cs.take i with
      | [] => ("", cs)
      | c0 :: rest =>
        if c0.isAlpha ∧ rest.all (fun c => c ∈ schemeChars) then
          (String.mk ((c0 :: rest).map Char.toLower), cs.drop (i + 1))
        else ("", cs)

/-- A single-quote character, used in the messages of `_validate_url` and in
the snapshot description lines. -/
def squote : String := String.mk ['\'']

/-- Python `str.split(sep)` over a character list: `pySplit c []` is `[[]]`,
matching `"".split(c) == [""]`. -/
def pySplit (sep : Char) : List Char → List (List Char)
  | [] => [[]]
  | c :: cs =>
    let r := pySplit sep cs
    if c = sep then [] :: r
    else (c :: r.headD []) :: r.tail

/-- Python `s.partition(sep)[2]`: everything after the first `sep`, empty when
`sep` is absent. -/
def pyPartitionAfter (sep : Char) (l : List Char) : List Char :=
  (l.dropWhile (fun c => ¬ c = sep)).drop 1

/-- Python `s.partition(sep)[0]`: everything before the first `sep`, the whole
string when `sep` is absent. -/
def pyPartitionBefore (sep : Char) (l : List Char) : List Char :=
  l.takeWhile (fun c => ¬ c = sep)

/-- The characters whose NFKC normalization contains one of the netloc
delimiters `/?#@:` (per the Unicode data shipped with CPython 3.11.6,
computed by exhaustive scan over all code points): ⁇ ⁈ ⁉ ℀ ℁ ℅ ℆ ⨴ and the
small/fullwidth forms of `: ? # @ /`.  `_checknetloc` raises exactly when the
netloc (minus literal `@ : # ?`) contains one of these: those five ASCII
delimiters take part in no canonical composition, so NFKC introduces one into
a string iff some character of the string compatibility-decomposes to it. -/
def nfkcUnsafeChar (c : Char) : Bool :=
  let n := c.toNat
  n = 0x2047 ∨ n = 0x2048 ∨ n = 0x2049 ∨ n = 0x2100 ∨ n = 0x2101 ∨
    n = 0x2105 ∨ n = 0x2106 ∨ n = 0x2A74 ∨ n = 0xFE13 ∨ n = 0xFE16 ∨
    n = 0xFE55 ∨ n = 0xFE56 ∨ n = 0xFE5F ∨ n = 0xFE6B ∨ n = 0xFF03 ∨
    n = 0xFF0F ∨ n = 0xFF1A ∨ n = 0xFF1F ∨ n = 0xFF20

/-- `urllib.parse._checknetloc` raises for this netloc: an ASCII or empty
netloc passes immediately; otherwise the netloc with `@ : # ?` removed is
NFKC-normalized and the result scanned for `/?#@:`, which by the
characterization above is a scan for `nfkcUnsafeChar`. -/
def checknetlocError (netloc : List Char) : Bool :=
  if netloc.isEmpty ∨ netloc.all (fun c => c.toNat ≤ 127) then false
  else
    (netloc.filter (fun c => ¬ (c = '@' ∨ c = ':' ∨ c = '#' ∨ c = '?'))).any
      nfkcUnsafeChar

/-- The `ValueError` message of `_checknetloc`. -/
def checknetlocMessage (netloc : List Char) : String :=
  "netloc " ++ squote ++ String.mk netloc ++ squote ++
    " contains invalid characters under NFKC normalization"

/-- ASCII decimal digit (`str.isascii() and str.isdigit()` per character). -/
def pyIsAsciiDigit (c : Char) : Bool := 48 ≤ c.toNat ∧ c.toNat ≤ 57

/-- ASCII hexadecimal digit, both cases (`string.hexdigits`). -/
def pyIsHexDigit (c : Char) : Bool :=
  (48 ≤ c.toNat ∧ c.toNat ≤ 57) ∨ (97 ≤ c.toNat ∧ c.toNat ≤ 102) ∨
    (65 ≤ c.toNat ∧ c.toNat ≤ 70)

/-- Decimal value of an ASCII digit string. -/
def octetVal (s : List Char) : Nat := s.foldl (fun a c => a * 10 + (c.toNat - 48)) 0

/-- `ipaddress.IPv4Address._parse_octet` accepts: nonempty, ASCII digits only,
at most 3 characters, no leading zero except `"0"` itself, value at most 255. -/
def parseOctetOk (s : List Char) : Bool :=
  ¬ s.isEmpty ∧ s.all pyIsAsciiDigit ∧ s.length ≤ 3 ∧
    (s = ['0'] ∨ ¬ s.headD ' ' = '0') ∧ octetVal s ≤ 255

/-- `ipaddress.IPv4Address` accepts the string (validity only): no `/`,
nonempty, exactly four valid dotted octets. -/
def ipv4Ok (s : List Char) : Bool :=
  if '/' ∈ s then false
  else if s.isEmpty then false
  else
    let octets := pySplit '.' s
    octets.length = 4 ∧ octets.all parseOctetOk

/-- `ipaddress.IPv6Address._parse_hextet` accepts: hex digits only, at most 4
characters (the empty string fails its `int(_, 16)` conversion). -/
def parseHextetOk (s : List Char) : Bool :=
  ¬ s.isEmpty ∧ s.all pyIsHexDigit ∧ s.length ≤ 4

/-- The count/`::`-placement logic of `IPv6Address._ip_int_from_string` after
the IPv4-suffix replacement: at most 9 colon-separated parts, at most one
empty inner part (the `::`), endpoint colons only as part of `::`, at least
one zero-group skipped by `::` (else exactly 8 parts), and every part that is
parsed a valid hextet. -/
def ipv6FromParts (parts : List (List Char)) : Bool :=
  if parts.length > 9 then false
  else
    let inner := (parts.drop 1).dropLast
    let empties := (inner.filter (fun p => p.isEmpty)).length
    if empties > 1 then false
    else if empties = 1 then
      let skip := 1 + inner.findIdx (fun p => p.isEmpty)
      let headEmpty := (parts.headD [' ']).isEmpty
      let lastEmpty := (parts.getLastD [' ']).isEmpty
      let hi := if headEmpty then skip - 1 else skip
      let lo0 := parts.length - skip - 1
      let lo := if lastEmpty then lo0 - 1 else lo0
      if headEmpty ∧ ¬ hi = 0 then false
      else if lastEmpty ∧ ¬ lo = 0 then false
      else if hi + lo ≥ 8 then false
      else (parts.take hi).all parseHextetOk ∧
        (parts.drop (parts.length - lo)).all parseHextetOk
    else
      parts.length = 8 ∧ ¬ (parts.headD [' ']).isEmpty ∧
        ¬ (parts.getLastD [' ']).isEmpty ∧ parts.all parseHextetOk

/-- `IPv6Address._ip_int_from_string` accepts (validity only): nonempty, at
least 3 colon-separated parts; an IPv4-style last part is parsed as IPv4 and
replaced by two hextets (modelled as `["0"] ["0"]` — the replacement values
are always valid nonempty hextets, so only the part count matters). -/
def ipv6StrOk (s : List Char) : Bool :=
  if s.isEmpty then false
  else
    let parts := pySplit ':' s
    if parts.length < 3 then false
    else if '.' ∈ parts.getLastD [] then
      if ipv4Ok (parts.getLastD []) then
        ipv6FromParts (parts.dropLast ++ [['0'], ['0']])
      else false
    else ipv6FromParts parts

/-- `ipaddress.IPv6Address` accepts the string (validity only): no `/`, an
optional `%scope` suffix (nonempty, no further `%`), and a valid address
before it. -/
def ipv6Ok (s : List Char) : Bool :=
  if '/' ∈ s then false
  else
    let addr := pyPartitionBefore '%' s
    if '%' ∈ s then
      let scope := pyPartitionAfter '%' s
      if scope.isEmpty ∨ '%' ∈ scope then false else ipv6StrOk addr
    else ipv6StrOk addr

/-- Lowercase hexadecimal digit of a value below 16. -/
def hexDigitChar (n : Nat) : Char :=
  if n < 10 then Char.ofNat (48 + n) else Char.ofNat (87 + n)

/-- Escape pass of Python `repr` for a string: backslash, the chosen quote,
`\n` `\r` `\t`, and `\xNN` for other control characters. -/
def pyReprEsc (q : Char) : List Char → List Char
  | [] => []
  | c :: cs =>
    (if c = '\\' then ['\\', '\\']
     else if c = q then ['\\', q]
     else if c = '\n' then ['\\', 'n']
     else if c = '\r' then ['\\', 'r']
     else if c = '\t' then ['\\', 't']
     else if c.toNat < 32 ∨ c.toNat = 127 then
       ['\\', 'x', hexDigitChar (c.toNat / 16), hexDigitChar (c.toNat % 16)]
     else [c]) ++ pyReprEsc q cs

/-- Python `repr` of a string: single quotes unless the string holds a single
quote but no double quote.  Non-printable characters above ASCII (which
`repr` would `\u`-escape) are kept as-is; they cannot reach the one message
built with this under the claims.  -/
def pyRepr (l : List Char) : String :=
  let q : Char := if '\'' ∈ l ∧ ¬ '"' ∈ l then '"' else '\''
  String.mk (q :: (pyReprEsc q l ++ [q]))

/-- `urllib.parse._check_bracketed_host` (CPython 3.11.6): a host starting
with `v` must match the IPvFuture pattern `v` + hex digits + `.` + a nonempty
newline-free remainder; any other host must be a valid IP address, and an
IPv4 one is rejected.  `some msg` models the raised `ValueError`. -/
def checkBracketedHost (host : List Char) : Option String :=
  match host with
  | 'v' :: afterV =>
    let hexRun := afterV.takeWhile pyIsHexDigit
    let rest := afterV.dropWhile pyIsHexDigit
    if ¬ hexRun.isEmpty ∧ rest.headD ' ' = '.' ∧ ¬ (rest.drop 1).isEmpty ∧
        ¬ '\n' ∈ rest.drop 1 then
      none
    else some "IPvFuture address is invalid"
  | _ =>
    if ipv4Ok host then some "An IPv4 address cannot be in brackets"
    else if ipv6Ok host then none
    else some (pyRepr host ++ " does not appear to be an IPv4 or IPv6 address")

/-- The netloc validation of `urlsplit` after the bracket-balance check: the
bracketed-host check (3.11+) when the netloc holds `[` and `]`, then
`_checknetloc`; `some msg` models a raised `ValueError`. -/
def netlocChecks (netloc : List Char) : Option String :=
  let brack :=
    if '[' ∈ netloc ∧ ']' ∈ netloc then
      checkBracketedHost (pyPartitionBefore ']' (pyPartitionAfter '[' netloc))
    else none
  match brack with
  | some e => some e
  | none =>
    if checknetlocError netloc then some (checknetlocMessage netloc) else none

/-- The scheme and network location produced by `urllib.parse.urlparse`. -/
structure UrlParts where
  scheme : String
  netloc : String
deriving Repr, DecidableEq

/-- The scheme/netloc fragment of `urllib.parse.urlsplit` as shipped with
CPython 3.11.6 (the interpreter this repository runs under): strip leading
C0-control/space characters, remove tab/CR/LF, split off the scheme, read the
netloc after a leading `//` up to the next `/`, `?` or `#`, raise
"Invalid IPv6 URL" for an unbalanced square bracket, validate a balanced
bracketed host (`_check_bracketed_host`), and reject netlocs that NFKC-
normalize to contain a delimiter (`_checknetloc`).  A raised `ValueError` is
modelled as `Except.error` with its message. -/
def urlparse (url : String) : Except String UrlParts :=
  let cs := ((url.toList.dropWhile isC0OrSpace).filter (fun c => ¬ isUnsafeUrlByte c))
  let sr := splitScheme cs
  match sr.2 with
  | '/' :: '/' :: tail =>
    let netloc := tail.takeWhile (fun c => ¬ (c = '/' ∨ c = '?' ∨ c = '#'))
    if ('[' ∈ netloc ∧ ']' ∉ netloc) ∨ (']' ∈ netloc ∧ '[' ∉ netloc) then
      Except.error "Invalid IPv6 URL"
    else
      match netlocChecks netloc with
      | some e => Except.error e
      | none => Except.ok ⟨sr.1, String.mk netloc⟩
  | _ => Except.ok ⟨sr.1, ""⟩

/-- `_validate_url` from `browser.py`: `(True, "")` for an http/https URL with
a netloc, otherwise `(False, reason)`; an exception from `urlparse` is caught
and stringified. -/
def validateUrl (url : String) : Bool × String :=
  match urlparse url with
  | Except.error e => (false, e)
  | Except.ok p =>
    if ¬ (p.scheme = "http" ∨ p.scheme = "https") then
      (false, "Only http/https allowed, got " ++ squote ++
        (if p.scheme = "" then "none" else p.scheme) ++ squote)
    else if p.netloc = "" then
      (false, "Missing domain")
    else (true, "")

/-! ## Content tool: blank-line collapsing and truncation -/

/-- Unicode whitespace as recognised by Python's `str.strip` (characters for
which `str.isspace` holds). -/
def pyIsSpace (c : Char) : Bool :=
  let n := c.toNat
  (9 ≤ n ∧ n ≤ 13) ∨ (28 ≤ n ∧ n ≤ 32) ∨ n = 133 ∨ n = 160 ∨ n = 0x1680 ∨
    (0x2000 ≤ n ∧ n ≤ 0x200A) ∨ n = 0x2028 ∨ n = 0x2029 ∨ n = 0x202F ∨
    n = 0x205F ∨ n = 0x3000

/-- Python `str.strip()`: drop whitespace from both ends. -/
def pyStrip (s : String) : String :=
  String.mk (((s.toList.dropWhile pyIsSpace).reverse.dropWhile pyIsSpace).reverse)

/-- Worker for `collapseNewlines`: `run` counts the newline run read so far;
a run is emitted capped at two newlines, which is exactly
`re.sub(r"\n\x7b3,\x7d", "\n\n", ·)`. -/
def collapseGo : List Char → Nat → List Char
  | [], run => List.replicate (min run 2) '\n'
  | c :: cs, run =>
    if c = '\n' then collapseGo cs (run + 1)
    else List.replicate (min run 2) '\n' ++ c :: collapseGo cs 0

/-- `re.sub(r"\n\x7b3,\x7d", "\n\n", s)`: every run of three or more newlines
becomes exactly two. -/
def collapseNewlines (s : String) : String := String.mk (collapseGo s.toList 0)

/-- `_CONTENT_MAX_CHARS` from `browser.py`. -/
def CONTENT_MAX_CHARS : Nat := 6000

/-- The text computed by `BrowserContentTool.execute` before truncation:
`re.sub(r"\n\x7b3,\x7d", "\n\n", raw.strip())` where `raw` is the page's
inner text. -/
def contentText (raw : String) : String := collapseNewlines (pyStrip raw)

/-- `BrowserContentTool.execute` after the inner-text call: collapse blank
lines, truncate past `_CONTENT_MAX_CHARS` with a marker holding the length
before truncation, and fall back to a placeholder for empty text. -/
def contentResult (raw : String) : String :=
  let text := contentText raw
  let text :=
    if text.length > CONTENT_MAX_CHARS then
      text.take CONTENT_MAX_CHARS ++
        "\n\n[...truncated — " ++ toString text.length ++ " chars total]"
    else text
  if text = "" then "(no text content)" else text

/-- Three consecutive newline characters occur in the list. -/
def hasTripleNewline : List Char → Bool
  | a :: b :: c :: rest =>
    (a = '\n' ∧ b = '\n' ∧ c = '\n') ∨ hasTripleNewline (b :: c :: rest)
  | _ => false

/-! ## Snapshot protocol: elements, markers, description lines -/

/-- A DOM element as seen by the snapshot script: its (uppercase) tag name,
the attributes the script reads (`getAttribute` returns `none` when absent),
its text content, and the `data-nanobot-ref` marker attribute.  The marker is
modelled as the number whose decimal numeral the attribute holds, since the
script only ever writes `String(i + 1)` and the click selector compares the
attribute against the decimal numeral of the ref. -/
structure Element where
  tagName : String
  role : Option String
  ariaLabel : Option String
  placeholder : Option String
  typeAttr : Option String
  textContent : String
  marker : Option Nat
deriving Repr, DecidableEq

/-- JavaScript `a || b` for an attribute read: `null` and the empty string
fall through to the default. -/
def jsOr (a : Option String) (b : String) : String :=
  match a with
  | some s => if s = "" then b else s
  | none => b

/-- JavaScript whitespace for `String.prototype.trim` (ASCII whitespace,
NBSP, BOM, line/paragraph separators; other Unicode `Zs` characters do not
occur in the inputs considered). -/
def jsIsSpace (c : Char) : Bool :=
  let n := c.toNat
  (9 ≤ n ∧ n ≤ 13) ∨ n = 32 ∨ n = 160 ∨ n = 0xFEFF ∨ n = 0x2028 ∨ n = 0x2029

/-- JavaScript `s.trim()`. -/
def jsTrim (s : String) : String :=
  String.mk (((s.toList.dropWhile jsIsSpace).reverse.dropWhile jsIsSpace).reverse)

/-- JavaScript `s.slice(0, n)`. -/
def jsSlice (n : Nat) (s : String) : String := String.mk (s.toList.take n)

/-- Worker for `escapeQuotes`: each single quote becomes backslash-quote. -/
def escList : List Char → List Char
  | [] => []
  | c :: cs => if c = '\'' then '\\' :: '\'' :: escList cs else c :: escList cs

/-- JavaScript `name.replace(/from-single-quote/g, backslash-quote)`. -/
def escapeQuotes (s : String) : String := String.mk (escList s.toList)

/-- JavaScript `s.toLowerCase()` over the character list (tag names and type
attributes are ASCII, where `Char.toLower` agrees with JavaScript). -/
def strToLower (s : String) : String := String.mk (s.toList.map Char.toLower)

/-- The snapshot script's `const role`:
the role attribute, else the lowercased tag name. -/
def elRole (el : Element) : String := jsOr el.role (strToLower el.tagName)

/-- The snapshot script's `const name`: aria-label, else placeholder, else
(for `A` tags) the trimmed text content sliced to 50 characters, with the
final `|| null` turning an empty result into `none`. -/
def elName (el : Element) : Option String :=
  let raw := jsOr el.ariaLabel (jsOr el.placeholder
    (if el.tagName = "A" then jsSlice 50 (jsTrim el.textContent) else ""))
  if raw = "" then none else some raw

/-- The snapshot script's `const type`: the type attribute (or empty),
lowercased. -/
def elType (el : Element) : String := strToLower (jsOr el.typeAttr "")

/-- One description line of the snapshot script, for the element at 1-based
position `ref` of the truncated list: role (attribute, else lowercased tag),
input-type prefix, best-effort name in quotes (escaped, then sliced to 40). -/
def describeEl (ref : Nat) (el : Element) : String :=
  let label := if elType el ≠ "" ∧ elRole el = "input"
               then elType el ++ " (input)" else elRole el
  let label2 :=
    match elName el with
    | some n => label ++ " " ++ squote ++ jsSlice 40 (escapeQuotes n) ++ squote
    | none => label
  toString ref ++ ". " ++ label2

/-- Description lines for the elements of `l`, the element after `i` earlier
ones receiving ref `i + 1`. -/
def linesFrom (i : Nat) : List Element → List String
  | [] => []
  | el :: rest => describeEl (i + 1) el :: linesFrom (i + 1) rest

/-- Marker assignment of the snapshot script: the element after `i` earlier
ones gets marker `i + 1` when `i < n`, and keeps its old marker otherwise
(the script tags only the sliced prefix). -/
def tagFrom (i n : Nat) : List Element → List Element
  | [] => []
  | el :: rest =>
    (if i < n then { el with marker := some (i + 1) } else el) :: tagFrom (i + 1) n rest

/-- `min(max(max_elements, 1), 200)` from `BrowserSnapshotTool.execute`. -/
def clampMax (m : Int) : Int := min (max m 1) 200

/-- The description lines returned by the snapshot script for page `els`
(the `querySelectorAll` matches in document order) and slice bound `n`. -/
def snapshotLines (els : List Element) (n : Nat) : List String :=
  linesFrom 0 (els.take n)

/-- The page after the snapshot script has tagged the first `n` elements. -/
def snapshotTag (els : List Element) (n : Nat) : List Element := tagFrom 0 n els

/-- JavaScript `Array.prototype.join`. -/
def jsJoin (sep : String) : List String → String
  | [] => ""
  | [s] => s
  | s :: rest => s ++ sep ++ jsJoin sep rest

/-- `BrowserSnapshotTool.execute` result text: clamp the requested maximum,
join the description lines, and replace an empty result with the fixed
message. -/
def snapshotResult (els : List Element) (maxElements : Int) : String :=
  let joined := jsJoin "\n" (snapshotLines els (clampMax maxElements).toNat)
  if joined = "" then "No interactive elements found." else joined

/-- `BrowserClickTool.execute` element lookup:
`page.locator(selector-for-marker ref).first`, the first element in document
order whose marker attribute equals `ref`. -/
def clickFind (els : List Element) (ref : Nat) : Option Element :=
  els.find? (fun el => decide (el.marker = some ref))

/-- An attribute value counts only when present and nonempty. -/
def optNonempty (o : Option String) : Option String :=
  match o with
  | some s => if s = "" then none else some s
  | none => none

/-- Modelled from the spec (claim C5): the element's semantic role — the
explicit role attribute, else the tag-derived role, lowercased. -/
def specRole (el : Element) : String :=
  (optNonempty el.role).getD (strToLower el.tagName)

/-- Modelled from the spec (claim C5): the input type, when one is given. -/
def specInputType (el : Element) : Option String :=
  optNonempty (el.typeAttr.map strToLower)

/-- Modelled from the spec (claim C5): the best-effort accessible name — the
accessible label, else the placeholder, else (for links only) the trimmed
visible text; `none` when no name is found. -/
def specAccessibleName (el : Element) : Option String :=
  match optNonempty el.ariaLabel with
  | some a => some a
  | none =>
    match optNonempty el.placeholder with
    | some p => some p
    | none =>
      if el.tagName = "A" then optNonempty (some (jsTrim el.textContent)) else none

/-- Modelled from the spec (claim C5): the description label — the semantic
role, prefixed by the input type when the role is a form input; the
accessible name, with quote characters escaped and truncated to 40
characters, appended in quotes; the name segment omitted entirely when no
name is found. -/
def specLabel (el : Element) : String :=
  let base :=
    match specInputType el with
    | some t => if specRole el = "input" then t ++ " (input)" else specRole el
    | none => specRole el
  match specAccessibleName el with
  | some n => base ++ " " ++ squote ++ jsSlice 40 (escapeQuotes n) ++ squote
  | none => base

/-- Modelled from the spec (claim C5): the description line `"<ref>. <label>"`. -/
def specDescriptionLine (ref : Nat) (el : Element) : String :=
  toString ref ++ ". " ++ specLabel el

/-! ## Session state machine -/

/-- The `BrowserSession` state: configuration fields and the four nullable
handles (`_playwright`, `_browser`, `_context`, `_page`).  The handles are
opaque engine objects, modelled by `Option Unit`. -/
structure BrowserSession where
  headless : Bool
  timeoutMs : Nat
  proxyServer : String
  storageStatePath : String
  playwright : Option Unit
  browser : Option Unit
  context : Option Unit
  page : Option Unit
deriving Repr, DecidableEq

/-- `BrowserSession.__init__`: configuration stored (strings stripped with
Python's `str.strip()`), all handles null. -/
def mkSession (headless : Bool) (timeoutMs : Nat) (proxyServer storagePath : String) :
    BrowserSession :=
  { headless := headless
    timeoutMs := timeoutMs
    proxyServer := pyStrip proxyServer
    storageStatePath := pyStrip storagePath
    playwright := none
    browser := none
    context := none
    page := none }

/-- Where a `get_page` launch can stop: each engine call in the launch
sequence may raise.  `startFail` also covers the "Playwright not installed"
raise (both leave the state unchanged).  `contextFail` covers both context
attempts failing (with or without the storage-state retry). -/
inductive LaunchOutcome where
  | startFail
  | launchFail
  | contextFail
  | pageFail
  | ok
deriving Repr, DecidableEq

/-- State transition of `BrowserSession.get_page`: an existing page is
returned unchanged; otherwise the launch sequence runs and each handle is
assigned exactly when the Python source has assigned it before the failing
call raises.  A failed launch leaves later handles at their previous
(possibly stale) values, since the source only overwrites them on success of
the corresponding call. -/
def getPageState (s : BrowserSession) (o : LaunchOutcome) : BrowserSession :=
  if s.page.isSome then s
  else
    match o with
    | .startFail => s
    | .launchFail => { s with playwright := some () }
    | .contextFail => { s with playwright := some (), browser := some () }
    | .pageFail => { s with playwright := some (), browser := some (), context := some () }
    | .ok =>
      { s with playwright := some (), browser := some (), context := some (),
               page := some () }

/-- Whether a `get_page` call raises: only when no page exists yet and the
launch stops early. -/
def getPageRaises (s : BrowserSession) (o : LaunchOutcome) : Bool :=
  s.page.isNone ∧ o ≠ .ok

/-- Where `BrowserSession.close` can stop: `browser.close()` or
`playwright.stop()` may raise (the storage-state save is inside its own
`try` and never propagates). -/
inductive CloseOutcome where
  | browserCloseFail
  | stopFail
  | ok
deriving Repr, DecidableEq

/-- State transition of `BrowserSession.close`: if `browser.close()` raises
nothing has been cleared yet; if `playwright.stop()` raises the browser,
context and page handles are already cleared; on success the driver handle
is cleared as well. -/
def closeState (s : BrowserSession) (o : CloseOutcome) : BrowserSession :=
  match o with
  | .browserCloseFail => s
  | .stopFail => { s with browser := none, context := none, page := none }
  | .ok => { s with playwright := none, browser := none, context := none, page := none }

/-- A close outcome is possible only at a call the source actually makes:
`browser.close()` runs only under `if self._browser`, `playwright.stop()`
only under `if self._playwright`. -/
def closeValid (s : BrowserSession) : CloseOutcome → Prop
  | .browserCloseFail => s.browser.isSome
  | .stopFail => s.playwright.isSome
  | .ok => True

/-- `BrowserSession.reconfigure`: with an open page, `close()` runs first and
the headless flag is updated only if it completes (an exception propagates
before the assignment); with no open page only the flag changes.  The `Bool`
records whether `close()` was called at all. -/
def reconfigureRun (s : BrowserSession) (h : Bool) (o : CloseOutcome) :
    BrowserSession × Bool :=
  if s.page.isSome then
    match o with
    | .ok => ({ closeState s .ok with headless := h }, true)
    | o => (closeState s o, true)
  else ({ s with headless := h }, false)

/-- `BrowserSession.save_storage_state`.  The body of the `try` block (path
resolution, directory creation, the engine's `storage_state` write, chmod)
is an external effect, modelled by `write`: `Except.ok p` means it completed
and resolved the path to `p`, `Except.error e` that some step raised `e`.
The function is total: every branch returns an outcome pair. -/
def saveStorageState (s : BrowserSession) (write : Except String String) :
    Bool × String :=
  if s.storageStatePath = "" then (false, "No storage state path configured.")
  else if s.context.isNone then (false, "Browser not started yet.")
  else
    match write with
    | Except.ok p => (true, "Saved to " ++ p)
    | Except.error e => (false, "Save failed: " ++ e)

/-- States of one `BrowserSession` object reachable through any sequence of
the session operations, where each engine call may fail at any permitted
point.  `save_storage_state` never changes the handle state, so it
contributes no transition beyond the identity. -/
inductive Reachable : BrowserSession → Prop where
  | init (headless : Bool) (timeoutMs : Nat) (proxyServer storagePath : String) :
      Reachable (mkSession headless timeoutMs proxyServer storagePath)
  | getPage (s : BrowserSession) (o : LaunchOutcome) :
      Reachable s → Reachable (getPageState s o)
  | reconfigure (s : BrowserSession) (h : Bool) (o : CloseOutcome) :
      Reachable s → closeValid s o → Reachable (reconfigureRun s h o).1
  | close (s : BrowserSession) (o : CloseOutcome) :
      Reachable s → closeValid s o → Reachable (closeState s o)

/-! ## The navigate command -/

/-- Outcomes of the engine calls made by one `BrowserNavigateTool.execute`
call: how a needed `close()` inside `reconfigure` ends, how a needed launch
inside `get_page` ends, the exception text used when `get_page` raises, and
whether `page.goto` succeeds (with its exception text otherwise).  Exception
texts are pairs (class name, message), rendered as in the `except` clause. -/
structure NavEnv where
  closeOutcome : CloseOutcome
  launchOutcome : LaunchOutcome
  launchErr : String × String
  gotoOk : Bool
  gotoErr : String × String
deriving Repr, DecidableEq

/-- What one `BrowserNavigateTool.execute` call produces: the returned text
(`none` when an exception escaped `execute` — only possible from the
`reconfigure` call, which sits outside the `try`), the session state after
the call, whether `reconfigure` was invoked, and how many background
`save_storage_state` tasks were spawned with `asyncio.create_task`. -/
structure NavReturn where
  result : Option String
  session : BrowserSession
  didReconfigure : Bool
  bgTasks : Nat
deriving Repr, DecidableEq

/-- The `try` block of `BrowserNavigateTool.execute`: `get_page`, `goto`,
then the fire-and-forget storage save (spawned only under
`if self._session._storage_state_path`) and the success message. -/
def navGoto (s : BrowserSession) (url : String) (env : NavEnv) (didRecon : Bool) :
    NavReturn :=
  if getPageRaises s env.launchOutcome then
    ⟨some ("Error: " ++ env.launchErr.1 ++ ": " ++ env.launchErr.2),
      getPageState s env.launchOutcome, didRecon, 0⟩
  else
    let s1 := getPageState s env.launchOutcome
    if ¬ env.gotoOk then
      ⟨some ("Error: " ++ env.gotoErr.1 ++ ": " ++ env.gotoErr.2), s1, didRecon, 0⟩
    else if s1.storageStatePath ≠ "" then
      ⟨some ("Navigated to " ++ url), s1, didRecon, 1⟩
    else
      ⟨some ("Navigated to " ++ url), s1, didRecon, 0⟩

/-- `BrowserNavigateTool.execute`: validate the URL, reconfigure when a
headless value is given that differs from the session's, then the `try`
block.  `bgResult` is the eventual result of the background save task; the
source discards the task handle, so the parameter is unused. -/
def navigateRun (s : BrowserSession) (url : String) (headless : Option Bool)
    (env : NavEnv) (bgResult : Bool × String) : NavReturn :=
  let v := validateUrl url
  if ¬ v.1 then ⟨some ("Error: " ++ v.2), s, false, 0⟩
  else
    match headless with
    | some h =>
      if h ≠ s.headless then
        if s.page.isSome ∧ env.closeOutcome ≠ .ok then
          ⟨none, (reconfigureRun s h env.closeOutcome).1, true, 0⟩
        else navGoto (reconfigureRun s h env.closeOutcome).1 url env true
      else navGoto s url env false
    | none => navGoto s url env false

/-! ## Theorems -/

/-- C2: `save_storage_state()` never raises (the embedding is a total
function): no configured path gives a failure outcome, a configured path
with no context yet gives a failure outcome with a distinct message, and a
failing write gives a failure outcome carrying the error message. -/
theorem saveStorageState_outcomes (s : BrowserSession) (w : Except String String) :
    (s.storageStatePath = "" →
      saveStorageState s w = (false, "No storage state path configured.")) ∧
    (s.storageStatePath ≠ "" → s.context = none →
      saveStorageState s w = (false, "Browser not started yet.")) ∧
    (∀ e, s.storageStatePath ≠ "" → s.context.isSome → w = Except.error e →
      saveStorageState s w = (false, "Save failed: " ++ e)) ∧
    ("No storage state path configured." : String) ≠ "Browser not started yet." := by
  refine ⟨fun h1 => by simp [saveStorageState, h1], fun h1 h2 => ?_,
    fun e h1 h2 h3 => ?_, by decide⟩
  · simp [saveStorageState, h1, h2]
  · cases hc : s.context with
    | none => rw [hc] at h2; simp at h2
    | some u => simp [saveStorageState, h1, hc, h3]

/-- C2 witness: the three outcomes at concrete sessions. -/
theorem saveStorageState_outcomes_witness :
    saveStorageState (mkSession true 30000 "" "") (Except.ok "p") =
        (false, "No storage state path configured.") ∧
    saveStorageState (mkSession true 30000 "" "/tmp/c.json") (Except.ok "p") =
        (false, "Browser not started yet.") ∧
    saveStorageState (getPageState (mkSession true 30000 "" "/tmp/c.json") .ok)
        (Except.error "boom") = (false, "Save failed: boom") :=
  ⟨(saveStorageState_outcomes (mkSession true 30000 "" "") (Except.ok "p")).1 (by decide),
   (saveStorageState_outcomes (mkSession true 30000 "" "/tmp/c.json")
      (Except.ok "p")).2.1 (by decide) (by decide),
   (saveStorageState_outcomes (getPageState (mkSession true 30000 "" "/tmp/c.json") .ok)
      (Except.error "boom")).2.2.1 "boom" (by decide) (by decide) rfl⟩

/-- C7: `reconfigure(h)` with no open page only changes the stored headless
flag and performs no close call; with an open page (and the close calls
succeeding) it performs a full close clearing all four handles and then sets
the headless flag to `h`, whatever its prior value. -/
theorem reconfigure_frame (s : BrowserSession) (h : Bool) (o : CloseOutcome) :
    (s.page = none → reconfigureRun s h o = ({ s with headless := h }, false)) ∧
    (s.page.isSome → reconfigureRun s h .ok =
      ({ s with headless := h, playwright := none, browser := none,
                context := none, page := none }, true)) := by
  constructor
  · intro hp; simp [reconfigureRun, hp]
  · intro hp; simp [reconfigureRun, hp, closeState]

/-- C7 witness: both branches at concrete sessions. -/
theorem reconfigure_frame_witness :
    reconfigureRun (mkSession true 30000 "" "") false CloseOutcome.ok =
      ({ mkSession true 30000 "" "" with headless := false }, false) ∧
    reconfigureRun (getPageState (mkSession true 30000 "" "") .ok) false CloseOutcome.ok =
      ({ (getPageState (mkSession true 30000 "" "") .ok) with
         headless := false, playwright := none, browser := none,
         context := none, page := none }, true) :=
  ⟨(reconfigure_frame (mkSession true 30000 "" "") false CloseOutcome.ok).1 rfl,
   (reconfigure_frame (getPageState (mkSession true 30000 "" "") .ok) false
      CloseOutcome.ok).2 (by decide)⟩

/-- C1 counterexample: the all-or-nothing biconditional fails in a reachable
state.  When `context.new_page()` raises during the launch, `get_page`
propagates the exception leaving the browser and context handles set but the
page handle null, so "page non-null iff context and process non-null" is
violated. -/
theorem handle_invariant_iff_counterexample :
    Reachable (getPageState (mkSession true 30000 "" "") LaunchOutcome.pageFail) ∧
    ¬ ((getPageState (mkSession true 30000 "" "") LaunchOutcome.pageFail).page.isSome ↔
        ((getPageState (mkSession true 30000 "" "") LaunchOutcome.pageFail).context.isSome ∧
         (getPageState (mkSession true 30000 "" "") LaunchOutcome.pageFail).browser.isSome)) :=
  ⟨Reachable.getPage _ LaunchOutcome.pageFail (Reachable.init true 30000 "" ""),
   by decide⟩

/-- C1 (amended): in every reachable state of a `BrowserSession` — under any
sequence of construction, `get_page`, `reconfigure`, `save_storage_state`
and `close`, with engine calls failing at any permitted point — a non-null
page handle implies non-null context and browser-process handles.  (The
converse direction of the claimed biconditional fails, see the
counterexample.) -/
theorem reachable_handle_invariant (s : BrowserSession) (hs : Reachable s) :
    s.page.isSome → s.context.isSome ∧ s.browser.isSome := by
  induction hs with
  | init headless timeoutMs proxyServer storagePath => simp [mkSession]
  | getPage s o hr ih =>
    cases hp : s.page.isSome with
    | true => simpa [getPageState, hp] using ih
    | false => cases o <;> simp [getPageState, hp] <;> simp_all
  | reconfigure s h o hr hv ih =>
    cases hp : s.page.isSome with
    | true => cases o <;> simp [reconfigureRun, closeState, hp] <;> simp_all
    | false => simpa [reconfigureRun, hp] using ih
  | close s o hr hv ih =>
    cases o <;> simp [closeState] <;> simp_all

/-- C1 witness: the amended invariant evaluated at the state after a fully
successful launch. -/
theorem reachable_handle_invariant_witness :
    (getPageState (mkSession true 30000 "" "") LaunchOutcome.ok).context.isSome ∧
    (getPageState (mkSession true 30000 "" "") LaunchOutcome.ok).browser.isSome :=
  reachable_handle_invariant _
    (Reachable.getPage _ LaunchOutcome.ok (Reachable.init true 30000 "" ""))
    (by decide)

theorem validateUrl_nfkc_reject :
    validateUrl "http://a℀b" =
      (false, "netloc " ++ squote ++ "a℀b" ++ squote ++
        " contains invalid characters under NFKC normalization") := by decide

theorem validateUrl_bracketed_reject :
    validateUrl "http://[abc]" =
      (false, squote ++ "abc" ++ squote ++
        " does not appear to be an IPv4 or IPv6 address") := by decide

/-- C3: URL validation accepts exactly the URLs that parse with scheme
`http` or `https` and a non-empty netloc; a parsed URL with any other
scheme is rejected with the message naming the offending scheme (`none`
for an empty scheme); a parsed http/https URL with an empty netloc is
rejected with the missing-domain message.  Inputs on which `urlparse`
itself raises — unbalanced brackets, an invalid bracketed host, or a netloc
rejected by the NFKC check — have no scheme or host and fall outside all
three parts: they are rejected with the stringified exception. -/
theorem validateUrl_spec (url : String) :
    ((validateUrl url).1 = true ↔
      ∃ p, urlparse url = Except.ok p ∧ (p.scheme = "http" ∨ p.scheme = "https") ∧
        p.netloc ≠ "") ∧
    (∀ p, urlparse url = Except.ok p → ¬ (p.scheme = "http" ∨ p.scheme = "https") →
      validateUrl url = (false, "Only http/https allowed, got " ++ squote ++
        (if p.scheme = "" then "none" else p.scheme) ++ squote)) ∧
    (∀ p, urlparse url = Except.ok p → (p.scheme = "http" ∨ p.scheme = "https") →
      p.netloc = "" → validateUrl url = (false, "Missing domain")) := by
  cases hu : urlparse url with
  | error e =>
    exact ⟨by simp [validateUrl, hu], fun p hp _ => Except.noConfusion hp,
      fun p hp _ _ => Except.noConfusion hp⟩
  | ok p =>
    refine ⟨⟨fun h => ?_, fun hex => ?_⟩, fun q hq hqs => ?_, fun q hq hqs hqn => ?_⟩
    · simp only [validateUrl, hu] at h
      by_cases hs : p.scheme = "http" ∨ p.scheme = "https"
      · by_cases hn : p.netloc = ""
        · simp [hs, hn] at h
        · exact ⟨p, rfl, hs, hn⟩
      · simp [hs] at h
    · obtain ⟨q, hq, hqs, hqn⟩ := hex
      cases hq
      simp [validateUrl, hu, hqs, hqn]
    · cases hq
      simp [validateUrl, hu, hqs]
    · cases hq
      simp [validateUrl, hu, hqs, hqn]

/-- C3 witness: the three parts at the inputs exercised by the repository's
own tests. -/
theorem validateUrl_spec_witness :
    (validateUrl "http://example.com").1 = true ∧
    validateUrl "ftp://example.com" =
      (false, "Only http/https allowed, got " ++ squote ++ "ftp" ++ squote) ∧
    validateUrl "https://" = (false, "Missing domain") :=
  ⟨(validateUrl_spec "http://example.com").1.mpr
      ⟨⟨"http", "example.com"⟩, rfl, Or.inl rfl, by decide⟩,
   (validateUrl_spec "ftp://example.com").2.1 ⟨"ftp", "example.com"⟩
      rfl (by decide),
   (validateUrl_spec "https://").2.2 ⟨"https", ""⟩ rfl (Or.inr rfl) rfl⟩

theorem length_linesFrom (i : Nat) (l : List Element) :
    (linesFrom i l).length = l.length := by
  induction l generalizing i with
  | nil => rfl
  | cons el rest ih => simp [linesFrom, ih]

theorem getElem?_linesFrom (i j : Nat) (l : List Element) :
    (linesFrom i l)[j]? = (l[j]?).map (fun el => describeEl (i + j + 1) el) := by
  induction l generalizing i j with
  | nil => simp [linesFrom]
  | cons el rest ih =>
    cases j with
    | zero => simp [linesFrom]
    | succ j =>
      have harith : i + 1 + j + 1 = i + (j + 1) + 1 := by omega
      simp [linesFrom, ih (i + 1) j, harith]

theorem length_tagFrom (i n : Nat) (l : List Element) :
    (tagFrom i n l).length = l.length := by
  induction l generalizing i with
  | nil => rfl
  | cons el rest ih => simp [tagFrom, ih]

theorem getElem?_tagFrom (i n j : Nat) (l : List Element) :
    (tagFrom i n l)[j]? =
      (l[j]?).map (fun el =>
        if i + j < n then { el with marker := some (i + j + 1) } else el) := by
  induction l generalizing i j with
  | nil => simp [tagFrom]
  | cons el rest ih =>
    cases j with
    | zero => simp [tagFrom]
    | succ j =>
      have harith : ∀ el : Element,
          (if i + 1 + j < n then { el with marker := some (i + 1 + j + 1) } else el) =
          (if i + (j + 1) < n then { el with marker := some (i + (j + 1) + 1) } else el) := by
        intro el
        have h1 : i + 1 + j = i + (j + 1) := by omega
        rw [h1]
      simp only [tagFrom, List.getElem?_cons_succ, ih (i + 1) j]
      cases rest[j]? <;> simp [harith]

/-- C4: the requested maximum is clamped to `[1, 200]` (and the default 50
is unchanged by clamping); with the clamped maximum at least the number of
matching elements the snapshot lists all of them, and with a smaller
clamped maximum exactly that many; line `i` describes element `i` of the
page (document order) under ref `i + 1`, and that element's marker
attribute is set to its 1-based position. -/
theorem snapshot_truncation (els : List Element) (m : Int) :
    (1 ≤ clampMax m ∧ clampMax m ≤ 200 ∧ clampMax 50 = 50) ∧
    ((clampMax m).toNat ≥ els.length →
      (snapshotLines els (clampMax m).toNat).length = els.length) ∧
    ((clampMax m).toNat < els.length →
      (snapshotLines els (clampMax m).toNat).length = (clampMax m).toNat) ∧
    (∀ i, i < min (clampMax m).toNat els.length →
      (snapshotLines els (clampMax m).toNat)[i]? =
        (els[i]?).map (fun el => describeEl (i + 1) el) ∧
      ((snapshotTag els (clampMax m).toNat)[i]?).map (fun el => el.marker) =
        some (some (i + 1))) := by
  refine ⟨⟨by rw [clampMax]; exact le_min (le_max_right m 1) (by norm_num),
      by rw [clampMax]; exact min_le_right _ _, by decide⟩,
    fun h => ?_, fun h => ?_, fun i hi => ⟨?_, ?_⟩⟩
  · simp [snapshotLines, length_linesFrom, List.length_take]
    omega
  · simp [snapshotLines, length_linesFrom, List.length_take]
    omega
  · rw [Nat.lt_min] at hi
    simp [snapshotLines, getElem?_linesFrom, List.getElem?_take, hi.1]
  · rw [Nat.lt_min] at hi
    rw [snapshotTag, getElem?_tagFrom, List.getElem?_eq_getElem hi.2]
    simp [hi.1]

/-- C4 witness: a page of three elements snapshotted with `max_elements = 2`
(clamped to 2): two lines, and element 1 gets marker 2. -/
theorem snapshot_truncation_witness :
    (snapshotLines [⟨"A", none, none, none, none, "x", none⟩,
        ⟨"BUTTON", none, none, none, none, "", none⟩,
        ⟨"SELECT", none, none, none, none, "", none⟩] (clampMax 2).toNat).length = 2 ∧
    ((snapshotTag [⟨"A", none, none, none, none, "x", none⟩,
        ⟨"BUTTON", none, none, none, none, "", none⟩,
        ⟨"SELECT", none, none, none, none, "", none⟩] (clampMax 2).toNat)[1]?).map
      (fun el => el.marker) = some (some 2) :=
  ⟨(snapshot_truncation [⟨"A", none, none, none, none, "x", none⟩,
      ⟨"BUTTON", none, none, none, none, "", none⟩,
      ⟨"SELECT", none, none, none, none, "", none⟩] 2).2.2.1 (by decide),
   ((snapshot_truncation [⟨"A", none, none, none, none, "x", none⟩,
      ⟨"BUTTON", none, none, none, none, "", none⟩,
      ⟨"SELECT", none, none, none, none, "", none⟩] 2).2.2.2 1 (by decide)).2⟩

theorem tagFrom_tagFrom (n1 n2 : Nat) (h : n2 ≤ n1) (i : Nat) (l : List Element) :
    tagFrom i n2 (tagFrom i n1 l) = tagFrom i n1 l := by
  induction l generalizing i with
  | nil => rfl
  | cons el rest ih =>
    by_cases h2 : i < n2
    · have h1 : i < n1 := lt_of_lt_of_le h2 h
      simp [tagFrom, h1, h2, ih]
    · by_cases h1 : i < n1 <;> simp [tagFrom, h1, h2, ih]

theorem find?_tagFrom (n r : Nat) (l : List Element) (i : Nat)
    (hir : i < r) (hrn : r ≤ n) (hlen : r - i ≤ l.length) :
    (tagFrom i n l).find? (fun el => decide (el.marker = some r)) =
      (tagFrom i n l)[r - i - 1]? := by
  induction l generalizing i with
  | nil => simp at hlen; omega
  | cons el rest ih =>
    have hin : i < n := lt_of_lt_of_le hir hrn
    by_cases he : i + 1 = r
    · have hz : r - i - 1 = 0 := by omega
      simp [tagFrom, hin, List.find?_cons, he, hz]
    · have hir1 : i + 1 < r := by omega
      have hlen1 : r - (i + 1) ≤ rest.length := by simp at hlen; omega
      have hs : r - i - 1 = (r - (i + 1) - 1) + 1 := by omega
      rw [tagFrom, if_pos hin, List.find?_cons]
      have hne : (decide ((some (i + 1) : Option Nat) = some r)) = false := by
        simp [he]
      simp only [hne]
      rw [ih (i + 1) hir1 hlen1, hs, List.getElem?_cons_succ]

/-- C10: a snapshot call assigns markers only to the first `n` elements and
never clears markers beyond them (first part, over any page); consequently,
after a snapshot with bound `n1` followed by a smaller snapshot with bound
`n2 < r ≤ n1` of the same unchanged page, position `r - 1` still bears the
earlier-generation marker `r`, and `click(r)` resolves to that stale element
rather than failing. -/
theorem snapshot_stale_markers (els els2 : List Element) (n1 n2 r i : Nat)
    (hn : n2 < r) (hr : r ≤ n1) (hlen : r ≤ els.length) (hi : n2 ≤ i) :
    ((snapshotTag els2 n2)[i]?).map (fun el => el.marker) =
      (els2[i]?).map (fun el => el.marker) ∧
    ∃ e, (snapshotTag (snapshotTag els n1) n2)[r - 1]? = some e ∧
      e.marker = some r ∧
      clickFind (snapshotTag (snapshotTag els n1) n2) r = some e := by
  constructor
  · rw [snapshotTag, getElem?_tagFrom]
    cases els2[i]? with
    | none => rfl
    | some el =>
      have hni : ¬ i < n2 := by omega
      simp [hni]
  · have h21 : n2 ≤ n1 := le_of_lt (lt_of_lt_of_le hn hr)
    rw [snapshotTag, snapshotTag, tagFrom_tagFrom n1 n2 h21]
    have hr1 : r - 1 < els.length := by omega
    have hfind := find?_tagFrom n1 r els 0 (by omega) hr (by omega)
    refine ⟨{ els.get ⟨r - 1, hr1⟩ with marker := some r }, ?_, rfl, ?_⟩
    · rw [getElem?_tagFrom, List.getElem?_eq_getElem hr1]
      have h0 : 0 + (r - 1) < n1 := by omega
      have hval : 0 + (r - 1) + 1 = r := by omega
      simp only [Option.map_some, h0, if_pos, hval]
      rfl
    · rw [clickFind, hfind]
      have hz : r - 0 - 1 = r - 1 := by omega
      rw [hz, getElem?_tagFrom, List.getElem?_eq_getElem hr1]
      have h0 : 0 + (r - 1) < n1 := by omega
      have hval : 0 + (r - 1) + 1 = r := by omega
      simp only [Option.map_some, h0, if_pos, hval]
      rfl

/-- C10 witness: three elements, first snapshot with bound 3, second with
bound 1; ref 2 is stale but still bears marker 2 and `click(2)` resolves. -/
theorem snapshot_stale_markers_witness :
    ((snapshotTag [⟨"A", none, none, none, none, "x", none⟩,
        ⟨"BUTTON", none, none, none, none, "", none⟩,
        ⟨"SELECT", none, none, none, none, "", none⟩] 1)[2]?).map
      (fun el => el.marker) =
      (([⟨"A", none, none, none, none, "x", none⟩,
        ⟨"BUTTON", none, none, none, none, "", none⟩,
        ⟨"SELECT", none, none, none, none, "", none⟩] :
          List Element)[2]?).map (fun el => el.marker) ∧
    ∃ e, (snapshotTag (snapshotTag [⟨"A", none, none, none, none, "x", none⟩,
        ⟨"BUTTON", none, none, none, none, "", none⟩,
        ⟨"SELECT", none, none, none, none, "", none⟩] 3) 1)[2 - 1]? = some e ∧
      e.marker = some 2 ∧
      clickFind (snapshotTag (snapshotTag [⟨"A", none, none, none, none, "x", none⟩,
        ⟨"BUTTON", none, none, none, none, "", none⟩,
        ⟨"SELECT", none, none, none, none, "", none⟩] 3) 1) 2 = some e :=
  snapshot_stale_markers
    [⟨"A", none, none, none, none, "x", none⟩,
     ⟨"BUTTON", none, none, none, none, "", none⟩,
     ⟨"SELECT", none, none, none, none, "", none⟩]
    [⟨"A", none, none, none, none, "x", none⟩,
     ⟨"BUTTON", none, none, none, none, "", none⟩,
     ⟨"SELECT", none, none, none, none, "", none⟩]
    3 1 2 2 (by decide) (by decide) (by decide) (by decide)

theorem hasTriple_cons_of_ne (c : Char) (hc : ¬ c = '\n') (l : List Char) :
    hasTripleNewline (c :: l) = hasTripleNewline l := by
  match l with
  | [] => rfl
  | [b] => rfl
  | b :: d :: t => simp [hasTripleNewline, hc]

theorem hasTriple_replicate_prepend (k : Nat) (hk : k ≤ 2) (c : Char)
    (hc : ¬ c = '\n') (l : List Char) :
    hasTripleNewline (List.replicate k '\n' ++ c :: l) =
      hasTripleNewline (c :: l) := by
  match k, hk with
  | 0, _ => rfl
  | 1, _ =>
    show hasTripleNewline ('\n' :: c :: l) = _
    match l with
    | [] => rfl
    | d :: t => simp [hasTripleNewline, hc]
  | 2, _ =>
    show hasTripleNewline ('\n' :: '\n' :: c :: l) = _
    rw [hasTripleNewline]
    simp only [hc, and_false, false_or]
    match l with
    | [] => rfl
    | d :: t => simp [hasTripleNewline, hc]

theorem hasTriple_replicate (k : Nat) (hk : k ≤ 2) :
    hasTripleNewline (List.replicate k '\n') = false := by
  match k, hk with
  | 0, _ => rfl
  | 1, _ => rfl
  | 2, _ => rfl

theorem hasTriple_collapseGo (cs : List Char) (run : Nat) :
    hasTripleNewline (collapseGo cs run) = false := by
  induction cs generalizing run with
  | nil => exact hasTriple_replicate _ (Nat.min_le_right run 2)
  | cons c rest ih =>
    by_cases hc : c = '\n'
    · rw [collapseGo, if_pos hc]
      exact ih (run + 1)
    · rw [collapseGo, if_neg hc,
        hasTriple_replicate_prepend _ (Nat.min_le_right run 2) c hc,
        hasTriple_cons_of_ne c hc]
      exact ih 0

/-- C6 counterexample: for an empty page text the collapsed text is empty
(well under the budget) yet the command returns the fixed placeholder, not
the collapsed text unmodified, so "content at or under the budget is
returned unmodified" fails at the empty string. -/
theorem content_empty_counterexample :
    contentText "" = "" ∧ (contentText "").length ≤ CONTENT_MAX_CHARS ∧
    contentResult "" = "(no text content)" ∧ contentResult "" ≠ contentText "" := by
  refine ⟨rfl, by decide, rfl, by decide⟩

/-- C6 (amended): the collapsed-and-stripped text never contains three
consecutive newlines; when it exceeds the fixed 6000-character budget the
command returns its first 6000 characters followed by the truncation marker
holding the pre-truncation length; when it is nonempty and at or under the
budget it is returned unmodified (the empty text instead yields the fixed
placeholder, see the counterexample). -/
theorem content_truncation (raw : String) :
    hasTripleNewline (contentText raw).toList = false ∧
    ((contentText raw).length > CONTENT_MAX_CHARS →
      contentResult raw = (contentText raw).take CONTENT_MAX_CHARS ++
        "\n\n[...truncated — " ++ toString (contentText raw).length ++
        " chars total]") ∧
    ((contentText raw).length ≤ CONTENT_MAX_CHARS → contentText raw ≠ "" →
      contentResult raw = contentText raw) := by
  refine ⟨hasTriple_collapseGo _ 0, fun hgt => ?_, fun hle hne => ?_⟩
  · rw [contentResult]
    simp only [hgt, if_pos]
    have hlen : ((contentText raw).take CONTENT_MAX_CHARS ++
        "\n\n[...truncated — " ++ toString (contentText raw).length ++
        " chars total]") ≠ "" := by
      intro h
      have h2 := congrArg String.length h
      rw [String.length_append, String.length_append, String.length_append] at h2
      have hpos : (0 : Nat) < ("\n\n[...truncated — " : String).length := by decide
      have hz : ("" : String).length = 0 := rfl
      rw [hz] at h2
      omega
    rw [if_neg hlen]
  · rw [contentResult]
    have hngt : ¬ (contentText raw).length > CONTENT_MAX_CHARS := by omega
    simp only [hngt, if_neg, if_false]
    rw [if_neg hne]

/-- C6 witness: a small text with a four-newline run and trailing blanks is
collapsed and returned unmodified (it is nonempty and under the budget). -/
theorem content_truncation_witness :
    contentResult "  a\n\n\n\nb  " = contentText "  a\n\n\n\nb  " ∧
    contentText "  a\n\n\n\nb  " = "a\n\nb" :=
  ⟨(content_truncation "  a\n\n\n\nb  ").2.2 (by decide) (by decide), by decide⟩

theorem string_eq_empty_of_data_eq_nil (s : String) (h : s.data = []) : s = "" := by
  cases s
  simp_all

theorem escList_append (l1 l2 : List Char) :
    escList (l1 ++ l2) = escList l1 ++ escList l2 := by
  induction l1 with
  | nil => rfl
  | cons c cs ih => by_cases h : c = '\'' <;> simp [escList, h, ih]

theorem length_le_length_escList (l : List Char) :
    l.length ≤ (escList l).length := by
  induction l with
  | nil => exact Nat.le_refl 0
  | cons c cs ih =>
    rw [escList]
    by_cases h : c = '\''
    · rw [if_pos h]; simp only [List.length_cons]; omega
    · rw [if_neg h]; simp only [List.length_cons]; omega

theorem take_escList_take (k n : Nat) (hk : k ≤ n) (l : List Char) :
    (escList (l.take n)).take k = (escList l).take k := by
  rcases le_or_lt l.length n with h | h
  · rw [List.take_of_length_le h]
  · have hlen : k ≤ (escList (l.take n)).length :=
      le_trans (le_trans hk (by rw [List.length_take]; omega))
        (length_le_length_escList _)
    conv_rhs => rw [← List.take_append_drop n l]
    rw [escList_append, List.take_append_of_le_length hlen]

theorem jsSlice_escape_slice (t : String) :
    jsSlice 40 (escapeQuotes (jsSlice 50 t)) = jsSlice 40 (escapeQuotes t) := by
  rw [jsSlice, jsSlice, jsSlice, escapeQuotes, escapeQuotes]
  exact congrArg String.mk (take_escList_take 40 50 (by omega) t.toList)

theorem jsSlice_eq_empty_iff (n : Nat) (hn : n ≠ 0) (s : String) :
    jsSlice n s = "" ↔ s = "" := by
  constructor
  · intro h
    have hd := congrArg String.data h
    rw [jsSlice] at hd
    have ht : s.toList.take n = [] := hd
    rcases List.take_eq_nil_iff.mp ht with h0 | h0
    · exact absurd h0 hn
    · exact string_eq_empty_of_data_eq_nil s h0
  · intro h
    rw [h, jsSlice]
    rw [show ("" : String).toList = ([] : List Char) from rfl, List.take_nil]

theorem jsOr_eq_getD (a : Option String) (b : String) :
    jsOr a b = (optNonempty a).getD b := by
  cases a with
  | none => rfl
  | some s => by_cases h : s = "" <;> simp [jsOr, optNonempty, h]

theorem optNonempty_some_ne (o : Option String) (a : String)
    (h : optNonempty o = some a) : a ≠ "" := by
  cases o with
  | none => simp [optNonempty] at h
  | some s =>
    by_cases hs : s = "" <;> simp [optNonempty, hs] at h
    subst h; exact hs

theorem specInputType_eq (el : Element) :
    specInputType el = if elType el = "" then none else some (elType el) := by
  rw [specInputType, elType]
  cases el.typeAttr with
  | none => rfl
  | some s =>
    by_cases hs : s = ""
    · subst hs; rfl
    · simp [jsOr, optNonempty, hs]

theorem elName_spec (el : Element) :
    (elName el = none ∧ specAccessibleName el = none) ∨
    (∃ r n, elName el = some r ∧ specAccessibleName el = some n ∧
      jsSlice 40 (escapeQuotes r) = jsSlice 40 (escapeQuotes n)) := by
  rw [elName, specAccessibleName, jsOr_eq_getD, jsOr_eq_getD]
  rcases ha : optNonempty el.ariaLabel with _ | a
  · simp only [Option.getD_none]
    rcases hp : optNonempty el.placeholder with _ | p
    · simp only [Option.getD_none]
      by_cases htag : el.tagName = "A"
      · simp only [htag, if_pos]
        by_cases htr : jsTrim el.textContent = ""
        · left
          have h50 : jsSlice 50 (jsTrim el.textContent) = "" := by rw [htr]; rfl
          refine ⟨by simp [h50], by simp [optNonempty, htr]⟩
        · right
          have h50 : jsSlice 50 (jsTrim el.textContent) ≠ "" :=
            fun h => htr ((jsSlice_eq_empty_iff 50 (by omega) _).mp h)
          exact ⟨jsSlice 50 (jsTrim el.textContent), jsTrim el.textContent,
            by simp [h50], by simp [optNonempty, htr], jsSlice_escape_slice _⟩
      · left
        simp [htag]
    · right
      have hpne := optNonempty_some_ne _ _ hp
      exact ⟨p, p, by simp [hpne], rfl, rfl⟩
  · right
    have hane := optNonempty_some_ne _ _ ha
    exact ⟨a, a, by simp [hane], rfl, rfl⟩

theorem describeEl_eq_spec (ref : Nat) (el : Element) :
    describeEl ref el = specDescriptionLine ref el := by
  rw [describeEl, specDescriptionLine, specLabel]
  have hrole : specRole el = elRole el := (jsOr_eq_getD el.role (strToLower el.tagName)).symm
  have hbase :
      (match specInputType el with
       | some t => if specRole el = "input" then t ++ " (input)" else specRole el
       | none => specRole el) =
      (if elType el ≠ "" ∧ elRole el = "input"
       then elType el ++ " (input)" else elRole el) := by
    rw [specInputType_eq, hrole]
    by_cases hty : elType el = ""
    · simp [hty]
    · by_cases hr : elRole el = "input" <;> simp [hty, hr]
  rcases elName_spec el with ⟨h1, h2⟩ | ⟨r, n, h1, h2, h3⟩
  · rw [h1, h2, hbase]
  · rw [h1, h2, hbase]
    simp only [h3]

/-- C5: each snapshot description line equals the line prescribed by the
spec — `"<ref>. <label>"` with the semantic role (explicit role attribute,
else lowercased tag-derived role), the input type prefixed when the role is
a form input, and the best-effort accessible name (accessible label, else
placeholder, else for links the trimmed visible text) appended in quotes
with quote characters escaped and the segment truncated to 40 characters,
omitted when no name is found; an empty result set yields the fixed
no-elements message, and the result is never the empty string. -/
theorem snapshot_description_format (ref : Nat) (el : Element)
    (els : List Element) (m : Int) :
    describeEl ref el = specDescriptionLine ref el ∧
    snapshotResult [] m = "No interactive elements found." ∧
    snapshotResult els m ≠ "" := by
  refine ⟨describeEl_eq_spec ref el, ?_, ?_⟩
  · simp [snapshotResult, snapshotLines, linesFrom, List.take_nil, jsJoin]
  · rw [snapshotResult]
    by_cases h : jsJoin "\n" (snapshotLines els (clampMax m).toNat) = "" <;> simp [h]

theorem storagePath_getPageState (s : BrowserSession) (o : LaunchOutcome) :
    (getPageState s o).storageStatePath = s.storageStatePath := by
  cases o <;> unfold getPageState <;> split <;> rfl

theorem storagePath_reconfigureRun (s : BrowserSession) (h : Bool) (o : CloseOutcome) :
    ((reconfigureRun s h o).1).storageStatePath = s.storageStatePath := by
  cases o <;> unfold reconfigureRun <;> split <;> rfl

theorem navGoto_ok (s : BrowserSession) (url : String) (le ge : String × String)
    (d : Bool) :
    navGoto s url ⟨CloseOutcome.ok, LaunchOutcome.ok, le, true, ge⟩ d =
      ⟨some ("Navigated to " ++ url), getPageState s LaunchOutcome.ok, d,
        if s.storageStatePath = "" then 0 else 1⟩ := by
  rw [navGoto]
  have h1 : getPageRaises s LaunchOutcome.ok = false := by
    simp [getPageRaises]
  rw [h1]
  simp only [Bool.false_eq_true, if_false, not_true, storagePath_getPageState]
  by_cases h : s.storageStatePath = "" <;> simp [h]

theorem navGoto_didRecon (s : BrowserSession) (url : String) (env : NavEnv)
    (d : Bool) :
    (navGoto s url env d).didReconfigure = d := by
  rw [navGoto]
  dsimp only
  split
  · rfl
  · split
    · rfl
    · split <;> rfl

theorem navGoto_page_some (s : BrowserSession) (url : String) (env : NavEnv)
    (d : Bool) (hp : s.page.isSome) :
    (navGoto s url env d).session = s := by
  have h1 : getPageRaises s env.launchOutcome = false := by
    simp [getPageRaises, Option.isNone_iff_eq_none]
    intro h
    rw [h] at hp
    simp at hp
  have h2 : getPageState s env.launchOutcome = s := by
    unfold getPageState
    rw [if_pos hp]
  rw [navGoto, h1]
  dsimp only
  simp only [Bool.false_eq_true, if_false, h2]
  split
  · rfl
  · split <;> rfl

/-- C8 counterexample: a fully successful navigate on a session with no
configured storage-state path spawns no background persistence task, so
"every successful navigate triggers a background persistence of storage
state" fails on a pathless session. -/
theorem navigate_no_persistence_counterexample :
    (navigateRun (mkSession true 30000 "" "") "http://example.com" none
      ⟨CloseOutcome.ok, LaunchOutcome.ok, ("E", "m"), true, ("E", "m")⟩
      (true, "")).result = some "Navigated to http://example.com" ∧
    (navigateRun (mkSession true 30000 "" "") "http://example.com" none
      ⟨CloseOutcome.ok, LaunchOutcome.ok, ("E", "m"), true, ("E", "m")⟩
      (true, "")).bgTasks = 0 := by
  constructor <;> rfl

/-- C8 (amended): a successful navigate (valid URL, any needed close and the
launch and `goto` all succeeding) returns the success message containing the
literal URL, spawns exactly one non-blocking background persistence task
when a storage-state path is configured and none when it is not, and its
outcome does not depend on the eventual result of the background save (the
`create_task` handle is discarded, so the command never waits for it). -/
theorem navigate_background_persistence (s : BrowserSession) (url : String)
    (hd : Option Bool) (env : NavEnv) (r1 r2 : Bool × String)
    (hv : (validateUrl url).1 = true)
    (hclose : env.closeOutcome = CloseOutcome.ok)
    (hlaunch : env.launchOutcome = LaunchOutcome.ok)
    (hgoto : env.gotoOk = true) :
    (navigateRun s url hd env r1).result = some ("Navigated to " ++ url) ∧
    ((navigateRun s url hd env r1).bgTasks =
      if s.storageStatePath = "" then 0 else 1) ∧
    navigateRun s url hd env r1 = navigateRun s url hd env r2 := by
  obtain ⟨co, lo, le, go, ge⟩ := env
  dsimp only at hclose hlaunch hgoto
  subst hclose
  subst hlaunch
  subst hgoto
  have hmain : ∀ rr : Bool × String,
      navigateRun s url hd ⟨CloseOutcome.ok, LaunchOutcome.ok, le, true, ge⟩ rr =
      navigateRun s url hd ⟨CloseOutcome.ok, LaunchOutcome.ok, le, true, ge⟩ r1 :=
    fun rr => rfl
  refine ⟨?_, ?_, (hmain r2).symm⟩ <;>
  · unfold navigateRun
    simp only [hv, not_true, if_false, Bool.true_eq_false]
    cases hd with
    | none =>
      rw [navGoto_ok]
    | some h =>
      by_cases hh : h = s.headless
      · simp only [hh, ne_eq, not_true, if_false, ite_not]
        rw [navGoto_ok]
      · simp only [ne_eq, hh, not_false_eq_true, if_pos, if_true, not_true,
          and_false, if_false]
        rw [navGoto_ok, storagePath_reconfigureRun]

/-- C8 witness: the amended statement at a concrete session with a
configured path, and at concrete eventual background-save results. -/
theorem navigate_background_persistence_witness :
    (navigateRun (mkSession true 30000 "" "/tmp/c.json") "http://example.com" none
      ⟨CloseOutcome.ok, LaunchOutcome.ok, ("E", "m"), true, ("E", "m")⟩
      (true, "ok")).result = some ("Navigated to " ++ "http://example.com") ∧
    ((navigateRun (mkSession true 30000 "" "/tmp/c.json") "http://example.com" none
      ⟨CloseOutcome.ok, LaunchOutcome.ok, ("E", "m"), true, ("E", "m")⟩
      (true, "ok")).bgTasks =
        if (mkSession true 30000 "" "/tmp/c.json").storageStatePath = "" then 0 else 1) ∧
    navigateRun (mkSession true 30000 "" "/tmp/c.json") "http://example.com" none
      ⟨CloseOutcome.ok, LaunchOutcome.ok, ("E", "m"), true, ("E", "m")⟩ (true, "ok") =
    navigateRun (mkSession true 30000 "" "/tmp/c.json") "http://example.com" none
      ⟨CloseOutcome.ok, LaunchOutcome.ok, ("E", "m"), true, ("E", "m")⟩ (false, "boom") :=
  navigate_background_persistence (mkSession true 30000 "" "/tmp/c.json")
    "http://example.com" none ⟨CloseOutcome.ok, LaunchOutcome.ok, ("E", "m"), true, ("E", "m")⟩
    (true, "ok") (false, "boom") rfl rfl rfl rfl

/-- C9: on a session with an open page, navigate tears the session down (via
`reconfigure`) only when a headless value is given that differs from the
current setting; when the value is omitted or equal, no reconfigure happens
and the session state — browser, context and page handles included — is
exactly the one before the call, the existing page being reused. -/
theorem navigate_reconfigure_only_on_change (s : BrowserSession) (url : String)
    (hd : Option Bool) (env : NavEnv) (r : Bool × String)
    (hp : s.page.isSome) :
    ((navigateRun s url hd env r).didReconfigure = true →
      ∃ b, hd = some b ∧ b ≠ s.headless) ∧
    ((hd = none ∨ hd = some s.headless) →
      (navigateRun s url hd env r).session = s ∧
      (navigateRun s url hd env r).didReconfigure = false) := by
  unfold navigateRun
  by_cases hv : (validateUrl url).1
  · simp only [hv, not_true, if_false, Bool.true_eq_false]
    cases hd with
    | none =>
      dsimp only
      refine ⟨fun hc => ?_, fun _ => ⟨navGoto_page_some s url env false hp, navGoto_didRecon s url env false⟩⟩
      rw [navGoto_didRecon] at hc
      exact absurd hc (by simp)
    | some b =>
      dsimp only
      by_cases hb : b = s.headless
      · subst hb
        have hnb : ¬ (s.headless ≠ s.headless) := by simp
        rw [if_neg hnb]
        refine ⟨fun hc => ?_, fun _ => ⟨navGoto_page_some s url env false hp,
          navGoto_didRecon s url env false⟩⟩
        rw [navGoto_didRecon] at hc
        exact absurd hc (by simp)
      · simp only [ne_eq, hb, not_false_eq_true, if_pos, if_true]
        refine ⟨fun _ => ⟨b, rfl, hb⟩, fun hor => ?_⟩
        rcases hor with h | h
        · exact absurd h (by simp)
        · rw [Option.some_inj] at h
          exact absurd h hb
  · have hv2 : ¬ ((validateUrl url).1 = true) := hv
    simp only [hv2, if_pos, not_false_eq_true]
    refine ⟨fun hc => ?_, fun _ => ⟨rfl, rfl⟩⟩
    exact absurd hc (by simp)

/-- C9 witness: a launched session, navigate with headless omitted — session
state untouched, no reconfigure. -/
theorem navigate_reconfigure_only_on_change_witness :
    (navigateRun (getPageState (mkSession true 30000 "" "") .ok) "http://example.com"
      none ⟨CloseOutcome.ok, LaunchOutcome.ok, ("E", "m"), true, ("E", "m")⟩
      (true, "")).session = getPageState (mkSession true 30000 "" "") .ok ∧
    (navigateRun (getPageState (mkSession true 30000 "" "") .ok) "http://example.com"
      none ⟨CloseOutcome.ok, LaunchOutcome.ok, ("E", "m"), true, ("E", "m")⟩
      (true, "")).didReconfigure = false :=
  (navigate_reconfigure_only_on_change (getPageState (mkSession true 30000 "" "") .ok)
    "http://example.com" none ⟨CloseOutcome.ok, LaunchOutcome.ok, ("E", "m"), true, ("E", "m")⟩
    (true, "") (by decide)).2 (Or.inl rfl)
